import Mathlib

/-!
Shallow embedding of the rollcall frontend auth core: the durable
client storage, the Redux auth slice (store/slices/authSlice.ts), the
route-guard middleware (middleware.ts), and the two ApiService HTTP
client implementations concatenated in services (api.ts and a second
implementation). Definitions are transcribed from the TypeScript
source; JavaScript truthiness and optional fields are modelled
explicitly.
-/

/-- Durable client storage (localStorage) as an association list. -/
abbrev Storage := List (String × String)

/-- localStorage.getItem: first binding of the key, none when absent. -/
def getItem : Storage → String → Option String
  | [], _ => none
  | (k, v) :: rest, key => if k = key then some v else getItem rest key

/-- localStorage.removeItem: drops every binding of the key. -/
def removeItem : Storage → String → Storage
  | [], _ => []
  | (k, v) :: rest, key =>
      if k = key then removeItem rest key else (k, v) :: removeItem rest key

/-- localStorage.setItem: overwrites the binding of the key. -/
def setItem (s : Storage) (key val : String) : Storage :=
  (key, val) :: removeItem s key

/-- JavaScript truthiness of an optional string: undefined and the
empty string are falsy, every other string is truthy. -/
def jsTruthy : Option String → Bool
  | none => false
  | some s => !s.isEmpty

/-- User record inside the authentication response (types/api.ts,
the inline user field of AuthResponse): id, email, name, role. -/
structure AuthUser where
  id : String
  email : String
  name : String
  role : String
deriving DecidableEq

/-- User profile (types/api.ts, UserProfile): the four identity
fields plus the required audit timestamps createdAt and updatedAt. -/
structure UserProfile where
  id : String
  email : String
  name : String
  role : String
  createdAt : String
  updatedAt : String
deriving DecidableEq

/-- Runtime object held by the user field of the slice state. The
slice declares the field as UserProfile or null, but setCredentials
assigns it the AuthResponse user, which has no audit timestamps, so
the stored object carries them only when setUser assigned a full
profile; the timestamps are therefore optional here. -/
structure UserObj where
  id : String
  email : String
  name : String
  role : String
  createdAt : Option String
  updatedAt : Option String
deriving DecidableEq

/-- The runtime object of an AuthResponse user. -/
def AuthUser.toObj (u : AuthUser) : UserObj :=
  { id := u.id
    email := u.email
    name := u.name
    role := u.role
    createdAt := none
    updatedAt := none }

/-- The runtime object of a full user profile. -/
def UserProfile.toObj (u : UserProfile) : UserObj :=
  { id := u.id
    email := u.email
    name := u.name
    role := u.role
    createdAt := some u.createdAt
    updatedAt := some u.updatedAt }

/-- Authentication response (types/api.ts, AuthResponse): a token and
the inline user record. -/
structure AuthResponse where
  token : String
  user : AuthUser
deriving DecidableEq

/-- The auth slice state (authSlice.ts). -/
structure AuthState where
  token : Option String
  user : Option UserObj
  isAuthenticated : Bool
  loading : Bool
  error : Option String
deriving DecidableEq

/-- Key the auth slice reads, writes and removes in durable storage
(authSlice.ts: localStorage.getItem, setItem, removeItem). -/
def authTokenStorageKey : String := "auth_token"

/-- initialState of the slice: token hydrated from durable storage,
isAuthenticated false. -/
def initialAuthState (sto : Storage) : AuthState :=
  { token := getItem sto authTokenStorageKey
    user := none
    isAuthenticated := false
    loading := false
    error := none }

/-- setCredentials reducer: sets token and user, marks authenticated,
clears error, mirrors the token into durable storage under
authTokenStorageKey. -/
def setCredentials (p : AuthResponse) : AuthState × Storage → AuthState × Storage
  | (s, sto) =>
      ({ s with
          token := some p.token
          user := some p.user.toObj
          isAuthenticated := true
          error := none },
        setItem sto authTokenStorageKey p.token)

/-- setUser reducer: replaces the user field only. -/
def setUser (u : UserProfile) : AuthState × Storage → AuthState × Storage
  | (s, sto) => ({ s with user := some u.toObj }, sto)

/-- setLoading reducer: replaces the loading flag only. -/
def setLoading (b : Bool) : AuthState × Storage → AuthState × Storage
  | (s, sto) => ({ s with loading := b }, sto)

/-- setError reducer: replaces the error field only. -/
def setError (m : String) : AuthState × Storage → AuthState × Storage
  | (s, sto) => ({ s with error := some m }, sto)

/-- logout reducer: clears token, user, authenticated flag and error,
and removes the token key from durable storage. -/
def logout : AuthState × Storage → AuthState × Storage
  | (s, sto) =>
      ({ s with
          token := none
          user := none
          isAuthenticated := false
          error := none },
        removeItem sto authTokenStorageKey)

/-- The slice actions. -/
inductive AuthAction
  | setCredentials (p : AuthResponse)
  | setUser (u : UserProfile)
  | setLoading (b : Bool)
  | setError (m : String)
  | logout
deriving DecidableEq

/-- Dispatch one action to the slice reducer. -/
def authReducer : AuthAction → AuthState × Storage → AuthState × Storage
  | .setCredentials p => setCredentials p
  | .setUser u => setUser u
  | .setLoading b => setLoading b
  | .setError m => setError m
  | .logout => logout

/-- Dispatch a list of actions, left to right. -/
def runActions (acts : List AuthAction) (s : AuthState × Storage) : AuthState × Storage :=
  acts.foldl (fun st a => authReducer a st) s

/-- How one action changes the isAuthenticated flag. -/
def updAuth (b : Bool) : AuthAction → Bool
  | .setCredentials _ => true
  | .logout => false
  | _ => b

/-- Modelled from the spec: a setCredentials action has occurred since
initialization or since the most recent logout. -/
def credSinceReset (acts : List AuthAction) : Bool :=
  acts.foldl updAuth false

/-- Protected paths (middleware.ts; the dashboard entry is commented
out in the source). -/
def protectedPaths : List String := ["/profile", "/settings"]

/-- Auth paths (middleware.ts). -/
def authPaths : List String := ["/auth/login", "/auth/register", "/auth/forgot-password"]

/-- Path classification used by the middleware: exact match, or the
pathname extends path followed by a slash. -/
def matchesPath (pathname path : String) : Bool :=
  pathname == path || List.isPrefixOf (path ++ "/").toList pathname.toList

/-- Whether the pathname is in the protected set. -/
def isProtectedPath (pathname : String) : Bool :=
  protectedPaths.any (fun p => matchesPath pathname p)

/-- Whether the pathname is in the auth set. -/
def isAuthPath (pathname : String) : Bool :=
  authPaths.any (fun p => matchesPath pathname p)

/-- Characters the JavaScript encodeURI function leaves unescaped:
letters, digits, the marks - _ . ! ~ * ( ) and the apostrophe
(code 39), and the reserved characters ; / ? : @ & = + $ , #. -/
def uriUnescapedMarks : String := "-_.!~*();/?:@&=+$,#"

/-- Whether encodeURI leaves the character as is. -/
def uriUnescaped (c : Char) : Bool :=
  c.isAlpha || c.isDigit || uriUnescapedMarks.toList.contains c || c.toNat == 39

/-- Uppercase hexadecimal digit. -/
def hexDigitChar (d : Nat) : Char :=
  Char.ofNat (if d < 10 then 48 + d else 55 + d)

/-- UTF-8 bytes of a character. -/
def utf8Bytes (c : Char) : List Nat :=
  let n := c.toNat
  if n < 128 then [n]
  else if n < 2048 then [192 + n / 64, 128 + n % 64]
  else if n < 65536 then [224 + n / 4096, 128 + n / 64 % 64, 128 + n % 64]
  else [240 + n / 262144, 128 + n / 4096 % 64, 128 + n / 64 % 64, 128 + n % 64]

/-- Percent escape of one byte, 37 being the percent sign. -/
def percentByte (n : Nat) : String :=
  String.mk [Char.ofNat 37, hexDigitChar (n / 16), hexDigitChar (n % 16)]

/-- encodeURI applied to one character. -/
def encodeURIChar (c : Char) : String :=
  if uriUnescaped c then String.mk [c] else String.join ((utf8Bytes c).map percentByte)

/-- The JavaScript encodeURI function, as applied by the middleware to
the requested URL before storing it in the callbackUrl parameter. -/
def encodeURI (s : String) : String :=
  String.join (s.toList.map encodeURIChar)

/-- Outcome of the route guard: a redirect to a path with query
parameters, or passing the request through. -/
inductive MwResult
  | redirect (path : String) (params : List (String × String))
  | next
deriving DecidableEq

/-- The middleware (middleware.ts): classify the pathname, read the
auth_token cookie, and redirect or pass through. The cookie argument
is the value of the auth_token cookie when that cookie is present. -/
def middleware (pathname url : String) (cookie : Option String) : MwResult :=
  if isProtectedPath pathname && !(jsTruthy cookie) then
    MwResult.redirect "/auth/login" [("callbackUrl", encodeURI url)]
  else if isAuthPath pathname && jsTruthy cookie then
    MwResult.redirect "/dashboard" []
  else
    MwResult.next

/-- Server error body at the HTTP boundary, shape
{message?, detail?, code?}; every field may be absent. -/
structure ErrBody where
  message : Option String
  detail : Option String
  code : Option String
deriving DecidableEq

/-- An HTTP error response attached to a request error: status,
status text, optional body, headers. -/
structure ErrResp where
  status : Nat
  statusText : String
  body : Option ErrBody
  headers : List (String × String)
deriving DecidableEq

/-- Browser ambient state touched by the clients: durable storage and
the window location. -/
structure Browser where
  storage : Storage
  location : String
deriving DecidableEq

/-- Error information inside a normalized failure; every field may be
absent. The data field carries the raw response body when the first
client attaches it. -/
structure ErrInfo where
  message : Option String
  detail : Option String
  code : Option String
  status : Option Nat
  data : Option ErrBody
deriving DecidableEq

/-- Value returned by a client method, as a record of fields that may
each be absent, mirroring the object literals in the source. -/
structure ClientResult where
  success : Bool
  data : Option String
  status : Option Nat
  statusText : Option String
  headers : Option (List (String × String))
  error : Option ErrInfo
deriving DecidableEq

/-- Storage key of the first ApiService (api.ts): its request
interceptor reads it and its 401 branch removes it. -/
def apiTokenKey : String := "token"

/-- Storage key of the second ApiService implementation: read by its
request interceptor, removed by its 401 branch. -/
def api2TokenKey : String := "auth_token"

/-- Replace a header. -/
def setHeader (hs : List (String × String)) (k v : String) : List (String × String) :=
  (k, v) :: removeItem hs k

/-- Request interceptor of the first ApiService: if a truthy token is
stored under apiTokenKey, attach it as a bearer header. -/
def requestInterceptor1 (sto : Storage) (headers : List (String × String)) : List (String × String) :=
  match getItem sto apiTokenKey with
  | some t => if t.isEmpty then headers else setHeader headers "Authorization" ("Bearer " ++ t)
  | none => headers

/-- Request interceptor of the second ApiService, same logic over
api2TokenKey. -/
def requestInterceptor2 (sto : Storage) (headers : List (String × String)) : List (String × String) :=
  match getItem sto api2TokenKey with
  | some t => if t.isEmpty then headers else setHeader headers "Authorization" ("Bearer " ++ t)
  | none => headers

/-- Whether an optional error response has status 401. -/
def is401 : Option ErrResp → Bool
  | some r => r.status == 401
  | none => false

/-- JavaScript a || b over an optional string and a default, with
empty strings falsy. -/
def jsOrS (o : Option String) (d : String) : String :=
  match o with
  | some s => if s.isEmpty then d else s
  | none => d

/-- Message of the normalized failure of the first ApiService:
response body detail, else response body message, else the transport
error message. -/
def resolveMessage1 (resp : Option ErrResp) (msg : String) : String :=
  jsOrS (resp.bind fun r => r.body.bind fun b => b.detail)
    (jsOrS (resp.bind fun r => r.body.bind fun b => b.message) msg)

/-- The value the first ApiService rejects with on any request error,
which its method bodies catch and return. -/
def failure1 (resp : Option ErrResp) (msg : String) : ClientResult :=
  { success := false
    data := none
    status := none
    statusText := none
    headers := none
    error := some
      { message := some (resolveMessage1 resp msg)
        detail := none
        code := none
        status := resp.map ErrResp.status
        data := resp.bind ErrResp.body } }

/-- Response error interceptor of the first ApiService: on a 401
status it removes apiTokenKey from storage and sets the location to
the login page, then rejects with the normalized failure. -/
def errorInterceptor1 (b : Browser) (resp : Option ErrResp) (msg : String) : Browser × ClientResult :=
  let b2 :=
    if is401 resp then
      { b with storage := removeItem b.storage apiTokenKey, location := "/login" }
    else b
  (b2, failure1 resp msg)

/-- Outcome delivered to the first ApiService by its transport: a
response, or a request error carrying an optional response and an
error message. -/
inductive Outcome1
  | ok (body : String) (status : Nat) (statusText : String) (headers : List (String × String))
  | err (resp : Option ErrResp) (msg : String)
deriving DecidableEq

/-- One method call of the first ApiService (get, post, put and
delete share this body): the success interceptor wraps the body as
{success:true, data}, the method returns that; any error runs the
error interceptor and the catch block returns the rejected value. -/
def runMethod1 (b : Browser) (o : Outcome1) : Browser × ClientResult :=
  match o with
  | .ok body _ _ _ =>
      (b, { success := true
            data := some body
            status := none
            statusText := none
            headers := none
            error := none })
  | .err resp msg => errorInterceptor1 b resp msg

/-- Outcome delivered to the second ApiService: a response, a
transport error with optional response, or a thrown value that is not
a transport error (message present when it is an Error instance). -/
inductive Outcome2
  | ok (body : String) (status : Nat) (statusText : String) (headers : List (String × String))
  | axiosErr (resp : Option ErrResp) (msg : String)
  | thrown (msg : Option String)
deriving DecidableEq

/-- Raw server body passed through as the error field by the second
ApiService. -/
def bodyAsErrInfo (b : ErrBody) : ErrInfo :=
  { message := b.message, detail := b.detail, code := b.code, status := none, data := none }

/-- The request method of the second ApiService: success returns
{data, status, statusText, headers, success:true}; its response
interceptor removes api2TokenKey and sets the location to the login
page on 401 and rethrows; the catch returns {success:false, status,
statusText, error:body, headers} when a response exists, else
{success:false, error:{message, code:UNKNOWN_ERROR}}. -/
def runRequest2 (b : Browser) (o : Outcome2) : Browser × ClientResult :=
  match o with
  | .ok body status statusText headers =>
      (b, { success := true
            data := some body
            status := some status
            statusText := some statusText
            headers := some headers
            error := none })
  | .axiosErr resp msg =>
      let b2 :=
        if is401 resp then
          { b with storage := removeItem b.storage api2TokenKey, location := "/auth/login" }
        else b
      match resp with
      | some r =>
          (b2, { success := false
                 data := none
                 status := some r.status
                 statusText := some r.statusText
                 headers := some r.headers
                 error := r.body.map bodyAsErrInfo })
      | none =>
          (b2, { success := false
                 data := none
                 status := none
                 statusText := none
                 headers := none
                 error := some
                   { message := some msg
                     detail := none
                     code := some "UNKNOWN_ERROR"
                     status := none
                     data := none } })
  | .thrown m =>
      (b, { success := false
            data := none
            status := none
            statusText := none
            headers := none
            error := some
              { message := some (match m with | some s => s | none => "Unknown error occurred")
                detail := none
                code := some "UNKNOWN_ERROR"
                status := none
                data := none } })

/-- HTTP verbs a client can expose. -/
inductive HttpMethod
  | get | post | put | patch | delete
deriving DecidableEq

/-- Methods defined on the first ApiService class (api.ts). -/
def apiServiceMethods : List HttpMethod :=
  [HttpMethod.get, HttpMethod.post, HttpMethod.put, HttpMethod.delete]

/-- Methods defined on the second ApiService implementation. -/
def apiService2Methods : List HttpMethod :=
  [HttpMethod.get, HttpMethod.post, HttpMethod.put, HttpMethod.patch, HttpMethod.delete]

/-- The endpoint layer (services/endpoints/auth.ts) imports the
apiService singleton exported by api.ts, the first implementation. -/
def endpointClientMethods : List HttpMethod := apiServiceMethods

/-- Modelled from the spec: the normalized result is exactly
{success:true, data, status, headers} or
{success:false, error:{message, code?, status?}}. -/
def specNormalizedB (r : ClientResult) : Bool :=
  (r.success && r.data.isSome && r.status.isSome && r.headers.isSome && r.error.isNone) ||
  (!r.success && r.data.isNone && r.status.isNone && r.headers.isNone &&
    (match r.error with | some e => e.message.isSome | none => false))

/-- Shape every result of the first ApiService satisfies: success
carries data only, failure carries an error with a message. -/
def resultShape1 (r : ClientResult) : Bool :=
  (r.success && r.data.isSome && r.status.isNone && r.headers.isNone && r.error.isNone) ||
  (!r.success && r.data.isNone && r.status.isNone && r.headers.isNone &&
    (match r.error with | some e => e.message.isSome | none => false))

/-- Shape every result of the second ApiService satisfies: success
carries data, status, statusText and headers; failure carries no
data. -/
def resultShape2 (r : ClientResult) : Bool :=
  (r.success && r.data.isSome && r.status.isSome && r.statusText.isSome &&
    r.headers.isSome && r.error.isNone) ||
  (!r.success && r.data.isNone)

/-- Sample response user used in closed statements. -/
def sampleUser : AuthUser := { id := "1", email := "e", name := "n", role := "user" }

/-- Sample setCredentials payload used in closed statements. -/
def samplePayload : AuthResponse := { token := "T", user := sampleUser }

/-- Sample 401 response used in closed statements. -/
def sampleErrResp : ErrResp :=
  { status := 401, statusText := "Unauthorized", body := none, headers := [] }

/-- Sample browser state used in closed statements. -/
def sampleBrowser : Browser :=
  { storage := [("token", "T"), ("auth_token", "T")], location := "/x" }

theorem getItem_setItem_same (s : Storage) (k v : String) :
    getItem (setItem s k v) k = some v := by
  simp [setItem, getItem]

theorem getItem_removeItem_same (s : Storage) (k : String) :
    getItem (removeItem s k) k = none := by
  induction s with
  | nil => rfl
  | cons h t ih =>
    obtain ⟨k2, v⟩ := h
    by_cases hk : k2 = k
    · simp [removeItem, hk, ih]
    · simp [removeItem, hk, getItem, ih]

theorem authReducer_isAuth (a : AuthAction) (s : AuthState × Storage) :
    (authReducer a s).1.isAuthenticated = updAuth s.1.isAuthenticated a := by
  obtain ⟨st, sto⟩ := s
  cases a <;> rfl

theorem runActions_isAuth (acts : List AuthAction) :
    ∀ s : AuthState × Storage,
      (runActions acts s).1.isAuthenticated = acts.foldl updAuth s.1.isAuthenticated := by
  induction acts with
  | nil => intro s; rfl
  | cons a rest ih =>
    intro s
    show (runActions rest (authReducer a s)).1.isAuthenticated = _
    rw [ih, authReducer_isAuth]
    rfl

/-- Claim C1, counterexample: the claim asserts one coherent storage
key, but setCredentials writes the token under auth_token while the
first ApiService (used by the endpoint layer) reads key token before
each request and removes key token on 401; after setCredentials on an
empty storage, the stored token is invisible to that request
interceptor and no bearer header is attached. -/
theorem storage_key_counterexample :
    authTokenStorageKey ≠ apiTokenKey ∧
    getItem (setCredentials samplePayload (initialAuthState [], [])).2 apiTokenKey = none ∧
    requestInterceptor1 (setCredentials samplePayload (initialAuthState [], [])).2 [] = [] := by
  refine ⟨by decide, by decide, by decide⟩

/-- Claim C1, amended: setCredentials writes the token under the key
auth_token, the same key logout removes and the same key the second
ApiService implementation reads before each request and removes on a
401; but the first ApiService, the one the endpoint layer imports,
reads and removes the different key token. -/
theorem storage_key_amended :
    authTokenStorageKey = api2TokenKey ∧
    authTokenStorageKey ≠ apiTokenKey ∧
    (∀ (st : AuthState) (sto : Storage) (p : AuthResponse),
      getItem (setCredentials p (st, sto)).2 api2TokenKey = some p.token) ∧
    (∀ (st : AuthState) (sto : Storage) (p : AuthResponse),
      requestInterceptor2 (setCredentials p (st, sto)).2 [] =
        if p.token.isEmpty then [] else [("Authorization", "Bearer " ++ p.token)]) ∧
    (∀ (st : AuthState) (sto : Storage) (p : AuthResponse),
      getItem (logout (setCredentials p (st, sto))).2 authTokenStorageKey = none) ∧
    (∀ (b : Browser) (stx : String) (body : Option ErrBody)
        (hs : List (String × String)) (msg : String),
      getItem (runRequest2 b (Outcome2.axiosErr
          (some { status := 401, statusText := stx, body := body, headers := hs }) msg)).1.storage
        api2TokenKey = none) := by
  refine ⟨rfl, by decide, ?_, ?_, ?_, ?_⟩
  · intro st sto p
    exact getItem_setItem_same sto authTokenStorageKey p.token
  · intro st sto p
    simp [requestInterceptor2, setCredentials, setItem, getItem, setHeader, removeItem,
      api2TokenKey, authTokenStorageKey]
  · intro st sto p
    exact getItem_removeItem_same _ _
  · intro b stx body hs msg
    simp [runRequest2, is401, getItem_removeItem_same]

/-- Claim C2: on a 401 outcome, each client removes its stored token
key from durable storage, sets the window location to its login page,
and returns the normalized failure to the caller; shown for the first
ApiService (any of its methods) and for the request method of the
second implementation. -/
theorem http401_side_effects (b : Browser) (r : ErrResp) (msg : String) (h : r.status = 401) :
    getItem (runMethod1 b (Outcome1.err (some r) msg)).1.storage apiTokenKey = none ∧
    (runMethod1 b (Outcome1.err (some r) msg)).1.location = "/login" ∧
    (runMethod1 b (Outcome1.err (some r) msg)).2.success = false ∧
    (runMethod1 b (Outcome1.err (some r) msg)).2.error.isSome = true ∧
    getItem (runRequest2 b (Outcome2.axiosErr (some r) msg)).1.storage api2TokenKey = none ∧
    (runRequest2 b (Outcome2.axiosErr (some r) msg)).1.location = "/auth/login" ∧
    (runRequest2 b (Outcome2.axiosErr (some r) msg)).2.success = false := by
  have h401 : is401 (some r) = true := by simp [is401, h]
  refine ⟨?_, ?_, rfl, rfl, ?_, ?_, rfl⟩
  · simp [runMethod1, errorInterceptor1, h401, getItem_removeItem_same]
  · simp [runMethod1, errorInterceptor1, h401]
  · simp [runRequest2, h401, getItem_removeItem_same]
  · simp [runRequest2, h401]

/-- Claim C2, witness at a concrete 401 outcome. -/
theorem http401_side_effects_witness :
    getItem (runMethod1 sampleBrowser (Outcome1.err (some sampleErrResp) "fail")).1.storage
      apiTokenKey = none ∧
    (runMethod1 sampleBrowser (Outcome1.err (some sampleErrResp) "fail")).1.location = "/login" ∧
    (runMethod1 sampleBrowser (Outcome1.err (some sampleErrResp) "fail")).2.success = false ∧
    (runMethod1 sampleBrowser (Outcome1.err (some sampleErrResp) "fail")).2.error.isSome = true ∧
    getItem (runRequest2 sampleBrowser (Outcome2.axiosErr (some sampleErrResp) "fail")).1.storage
      api2TokenKey = none ∧
    (runRequest2 sampleBrowser (Outcome2.axiosErr (some sampleErrResp) "fail")).1.location
      = "/auth/login" ∧
    (runRequest2 sampleBrowser (Outcome2.axiosErr (some sampleErrResp) "fail")).2.success = false :=
  http401_side_effects sampleBrowser sampleErrResp "fail" (by decide)

/-- Claim C3, counterexample: the claim asserts every result is
exactly one of the two normalized shapes, with success results
carrying data, status and headers; but a successful call through the
first ApiService returns only {success, data}, with no status and no
headers. -/
theorem normalized_shape_counterexample :
    specNormalizedB ((runMethod1 { storage := [], location := "" }
      (Outcome1.ok "d" 200 "OK" [])).2) = false := by decide

/-- Claim C3, amended: every outcome yields a returned, not thrown,
result discriminated by the success flag; the first ApiService
returns {success:true, data} on success (no status, no headers) and a
failure whose error always carries a message; the second returns
{success:true, data, status, statusText, headers} on success and a
failure that never carries data. -/
theorem normalized_shape_amended :
    (∀ (b : Browser) (o : Outcome1), resultShape1 ((runMethod1 b o).2) = true) ∧
    (∀ (b : Browser) (o : Outcome2), resultShape2 ((runRequest2 b o).2) = true) := by
  constructor
  · intro b o
    cases o with
    | ok body status statusText headers => rfl
    | err resp msg => rfl
  · intro b o
    cases o with
    | ok body status statusText headers => rfl
    | axiosErr resp msg =>
      cases resp with
      | some r => rfl
      | none => rfl
    | thrown m => rfl

/-- Claim C4, counterexample: the claim asserts the callback query
parameter equals the originally requested URL, but the middleware
stores encodeURI of the URL, which differs whenever the URL contains
a character encodeURI escapes, such as the percent sign of an
existing escape sequence. -/
theorem guard_callback_counterexample :
    middleware "/profile" "http://x/a%20b" none =
      MwResult.redirect "/auth/login" [("callbackUrl", "http://x/a%2520b")] ∧
    ("http://x/a%2520b" : String) ≠ "http://x/a%20b" := by
  refine ⟨by decide, by decide⟩

/-- Claim C4, amended: for every protected pathname and request with
no session cookie, the middleware redirects to the login path with a
callbackUrl parameter equal to encodeURI applied to the originally
requested URL (equal to that URL exactly when it contains no
character encodeURI escapes). -/
theorem guard_callback_amended (pathname url : String) (hp : isProtectedPath pathname = true) :
    middleware pathname url none =
      MwResult.redirect "/auth/login" [("callbackUrl", encodeURI url)] := by
  simp [middleware, hp, jsTruthy]

/-- Claim C4, witness at a concrete protected path. -/
theorem guard_callback_amended_witness :
    middleware "/profile" "http://x/a" none =
      MwResult.redirect "/auth/login" [("callbackUrl", encodeURI "http://x/a")] :=
  guard_callback_amended "/profile" "http://x/a" (by decide)

/-- Claim C5, counterexample: the claim asserts the redirect happens
for any present cookie regardless of content, but a present cookie
with the empty string as value is falsy in the guard, which then
passes the request through instead of redirecting to the dashboard. -/
theorem guard_authpath_counterexample :
    middleware "/auth/login" "http://x/auth/login" (some "") = MwResult.next ∧
    MwResult.next ≠ MwResult.redirect "/dashboard" [] := by
  refine ⟨by decide, by decide⟩

/-- Claim C5, amended: for every auth pathname, when the session
cookie is present with a non-empty value, the middleware redirects to
the dashboard, no matter which non-empty value the cookie holds. -/
theorem guard_authpath_amended (pathname url v : String) (ha : isAuthPath pathname = true)
    (hv : v.isEmpty = false) :
    middleware pathname url (some v) = MwResult.redirect "/dashboard" [] := by
  simp [middleware, jsTruthy, ha, hv]

/-- Claim C5, witness at a concrete auth path and cookie value. -/
theorem guard_authpath_amended_witness :
    middleware "/auth/login" "http://x/auth/login" (some "tok") =
      MwResult.redirect "/dashboard" [] :=
  guard_authpath_amended "/auth/login" "http://x/auth/login" "tok" (by decide) (by decide)

/-- Claim C6: from any slice state, setCredentials yields the payload
token, the runtime object of the payload user, authenticated true,
error cleared, loading untouched, and the token is stored under the
auth_token key in durable storage. -/
theorem setCredentials_effect (st : AuthState) (sto : Storage) (p : AuthResponse) :
    (setCredentials p (st, sto)).1 =
      { token := some p.token
        user := some p.user.toObj
        isAuthenticated := true
        loading := st.loading
        error := none } ∧
    getItem (setCredentials p (st, sto)).2 authTokenStorageKey = some p.token :=
  ⟨rfl, getItem_setItem_same sto authTokenStorageKey p.token⟩

/-- Claim C7: in every state reachable from the hydrated initial
state, isAuthenticated is true only when a setCredentials action
occurred after initialization or after the most recent logout; the
initial state can hold a non-null hydrated token while
isAuthenticated is false. -/
theorem isAuthenticated_only_after_credentials (sto : Storage) (acts : List AuthAction) :
    ((runActions acts (initialAuthState sto, sto)).1.isAuthenticated = true →
      credSinceReset acts = true) ∧
    (initialAuthState sto).isAuthenticated = false ∧
    (∀ t : String, (initialAuthState (setItem sto authTokenStorageKey t)).token = some t) := by
  refine ⟨?_, rfl, ?_⟩
  · intro h
    rw [runActions_isAuth acts (initialAuthState sto, sto)] at h
    exact h
  · intro t
    simp [initialAuthState, getItem_setItem_same]

/-- Claim C7, witness at a concrete one-action trace. -/
theorem isAuthenticated_only_after_credentials_witness :
    credSinceReset [AuthAction.setCredentials samplePayload] = true :=
  (isAuthenticated_only_after_credentials [] [AuthAction.setCredentials samplePayload]).1
    (by decide)

/-- Claim C8: dispatching setCredentials then setUser leaves token,
isAuthenticated and the stored token unchanged while the user field
becomes the runtime object of the new profile. -/
theorem setUser_frame (st : AuthState) (sto : Storage) (p : AuthResponse) (u : UserProfile) :
    (setUser u (setCredentials p (st, sto))).1.token = (setCredentials p (st, sto)).1.token ∧
    (setUser u (setCredentials p (st, sto))).1.isAuthenticated
      = (setCredentials p (st, sto)).1.isAuthenticated ∧
    (setUser u (setCredentials p (st, sto))).1.user = some u.toObj ∧
    (setUser u (setCredentials p (st, sto))).2 = (setCredentials p (st, sto)).2 :=
  ⟨rfl, rfl, rfl, rfl⟩

/-- Claim C9, counterexample: the claim asserts the client used by
the endpoint layer exposes all five methods, but the first ApiService
class defines no patch method. -/
theorem client_methods_counterexample :
    HttpMethod.patch ∉ endpointClientMethods := by decide

/-- Claim C9, amended: the client the endpoint layer imports exposes
get, post, put and delete; patch exists only on the second ApiService
implementation, which exposes all five. -/
theorem client_methods_amended :
    endpointClientMethods
      = [HttpMethod.get, HttpMethod.post, HttpMethod.put, HttpMethod.delete] ∧
    HttpMethod.patch ∉ endpointClientMethods ∧
    apiService2Methods
      = [HttpMethod.get, HttpMethod.post, HttpMethod.put, HttpMethod.patch, HttpMethod.delete] :=
  ⟨rfl, by decide, rfl⟩

/-- Claim C10: setLoading changes only the loading field and setError
changes only the error field; token, user, isAuthenticated and
durable storage are untouched. -/
theorem transient_flags_frame (st : AuthState) (sto : Storage) (b : Bool) (m : String) :
    setLoading b (st, sto) = ({ st with loading := b }, sto) ∧
    setError m (st, sto) = ({ st with error := some m }, sto) :=
  ⟨rfl, rfl⟩
